import Mathlib

/-!
Verification of the enterprise-workflows system against its specification.

The repository ships the presentation dashboard (two variants of a React
workflow list, a timeline view, and a router) as source; the backing
workflow core (WorkflowStore, AI Analyzer, Approval Gateway, Action
Executor) is described by the specification.  Definitions below are either
translated from the dashboard source files or, where marked, modelled from
the specification text for the core that is not shipped.
-/

namespace EnterpriseWorkflows

/-- States of the workflow state machine (spec section 4). -/
inductive WState
  | RECEIVED
  | AI_ANALYZED
  | WAITING_FOR_APPROVAL
  | ACTION_APPROVED
  | ACTION_EXECUTED
  | ACTION_FAILED
  | REJECTED
  | AI_FAILED
deriving DecidableEq, Repr, BEq

/-- A human decision is either an approval or a rejection. -/
inductive Decision
  | approved
  | rejected
deriving DecidableEq, Repr

/-- Modelled from the spec: the validated AI recommendation stored on a
record (section 3, field ai_output). -/
structure AIOutput where
  intent : String
  recommended_action : String
  confidence : Rat
deriving DecidableEq, Repr

/-- Modelled from the spec: the recorded human decision (section 3, field
human_decision). -/
structure HumanDecision where
  decision : Decision
  reviewer : String
  notes : Option String
deriving DecidableEq, Repr

/-- Modelled from the spec: one entry of the append-only event log
(section 3). -/
structure WEvent where
  event_type : String
  event_data : Option String
deriving DecidableEq, Repr

/-- Modelled from the spec: a WorkflowRecord (section 3), with a ghost
counter of Action Executor invocations used to state the single-invocation
guarantee. -/
structure WorkflowRecord where
  id : Nat
  state : WState
  request_text : String
  ai_output : Option AIOutput
  human_decision : Option HumanDecision
  events : List WEvent
  executor_invocations : Nat
deriving DecidableEq, Repr

/-- The WorkflowStore content: records in insertion order. -/
abbrev Store : Type := List WorkflowRecord

/-- Modelled from the spec: the fresh record written by create
(section 4.1), state RECEIVED with a created event. -/
def mkRecord (id : Nat) (text : String) : WorkflowRecord :=
  { id := id
    state := .RECEIVED
    request_text := text
    ai_output := none
    human_decision := none
    events := [⟨"created", some text⟩]
    executor_invocations := 0 }

/-- Modelled from the spec: the per-record transitions of the state
machine (section 4 diagram).  Each constructor is one conditional store
write; the Action Executor is invoked exactly when a record leaves
ACTION_APPROVED, so the ghost counter is incremented there. -/
inductive RStep : WorkflowRecord → WorkflowRecord → Prop
  | claim (r : WorkflowRecord) (h : r.state = .RECEIVED) :
      RStep r { r with state := .AI_ANALYZED,
                       events := r.events ++ [⟨"claimed", none⟩] }
  | analyzeOk (r : WorkflowRecord) (out : AIOutput) (h : r.state = .AI_ANALYZED) :
      RStep r { r with state := .WAITING_FOR_APPROVAL,
                       ai_output := some out,
                       events := r.events ++ [⟨"ai_analyzed", none⟩] }
  | analyzeFail (r : WorkflowRecord) (raw : String) (h : r.state = .AI_ANALYZED) :
      RStep r { r with state := .AI_FAILED,
                       events := r.events ++ [⟨"ai_failed", some raw⟩] }
  | reject (r : WorkflowRecord) (d : HumanDecision)
      (h : r.state = .WAITING_FOR_APPROVAL) (hd : d.decision = .rejected) :
      RStep r { r with state := .REJECTED,
                       human_decision := some d,
                       events := r.events ++ [⟨"rejected", none⟩] }
  | approve (r : WorkflowRecord) (d : HumanDecision)
      (h : r.state = .WAITING_FOR_APPROVAL) (hd : d.decision = .approved) :
      RStep r { r with state := .ACTION_APPROVED,
                       human_decision := some d,
                       events := r.events ++ [⟨"approved", none⟩] }
  | execOk (r : WorkflowRecord) (h : r.state = .ACTION_APPROVED) :
      RStep r { r with state := .ACTION_EXECUTED,
                       executor_invocations := r.executor_invocations + 1,
                       events := r.events ++ [⟨"action_executed", none⟩] }
  | execFail (r : WorkflowRecord) (err : String) (h : r.state = .ACTION_APPROVED) :
      RStep r { r with state := .ACTION_FAILED,
                       executor_invocations := r.executor_invocations + 1,
                       events := r.events ++ [⟨"action_failed", some err⟩] }

/-- Characters the dashboard string trim removes (the JavaScript
String.prototype.trim whitespace set restricted to ASCII). -/
def isWs (c : Char) : Bool :=
  c == ' ' || c == '\t' || c == '\n' || c == '\r' ||
  c == Char.ofNat 11 || c == Char.ofNat 12

/-- Leading and trailing whitespace removal on character lists. -/
def trimL (l : List Char) : List Char :=
  (((l.dropWhile isWs).reverse).dropWhile isWs).reverse

/-- String trim as the dashboard uses it. -/
def jsTrim (s : String) : String :=
  String.mk (trimL s.toList)

/-- Modelled from the spec: store-level operations (section 4.1 create and
the conditional transition primitive applied by the two mutating agents). -/
inductive StoreStep : Store → Store → Prop
  | create (s : Store) (text : String) (h : jsTrim text ≠ "") :
      StoreStep s (s ++ [mkRecord s.length text])
  | recordStep (s : Store) (i : Nat) (hi : i < s.length) (r' : WorkflowRecord)
      (h : RStep (s.get ⟨i, hi⟩) r') :
      StoreStep s (s.set i r')

/-- Stores reachable from the empty store by create calls and conditional
transitions. -/
inductive Reachable : Store → Prop
  | init : Reachable ([] : Store)
  | step {s s' : Store} : Reachable s → StoreStep s s' → Reachable s'

/-- The per-record invariant carried through the state machine: the ghost
executor counter and the human decision agree with the state. -/
def recordInv (r : WorkflowRecord) : Prop :=
  match r.state with
  | .RECEIVED | .AI_ANALYZED | .WAITING_FOR_APPROVAL | .AI_FAILED =>
      r.executor_invocations = 0 ∧ r.human_decision = none
  | .ACTION_APPROVED =>
      r.executor_invocations = 0 ∧
        ∃ d, r.human_decision = some d ∧ d.decision = .approved
  | .REJECTED =>
      r.executor_invocations = 0 ∧
        ∃ d, r.human_decision = some d ∧ d.decision = .rejected
  | .ACTION_EXECUTED | .ACTION_FAILED =>
      r.executor_invocations ≤ 1 ∧
        ∃ d, r.human_decision = some d ∧ d.decision = .approved

theorem recordInv_mkRecord (id : Nat) (text : String) :
    recordInv (mkRecord id text) := by
  simp [recordInv, mkRecord]

theorem recordInv_rstep {r r' : WorkflowRecord}
    (hstep : RStep r r') (hinv : recordInv r) : recordInv r' := by
  cases hstep with
  | claim h =>
      simp only [recordInv, h] at hinv
      simp [recordInv, hinv]
  | analyzeOk out h =>
      simp only [recordInv, h] at hinv
      simp [recordInv, hinv]
  | analyzeFail raw h =>
      simp only [recordInv, h] at hinv
      simp [recordInv, hinv]
  | reject d h hd =>
      simp only [recordInv, h] at hinv
      exact ⟨hinv.1, d, rfl, hd⟩
  | approve d h hd =>
      simp only [recordInv, h] at hinv
      exact ⟨hinv.1, d, rfl, hd⟩
  | execOk h =>
      simp only [recordInv, h] at hinv
      obtain ⟨h0, hd⟩ := hinv
      exact ⟨by simp [h0], hd⟩
  | execFail err h =>
      simp only [recordInv, h] at hinv
      obtain ⟨h0, hd⟩ := hinv
      exact ⟨by simp [h0], hd⟩

/-- Every record of a reachable store satisfies the invariant. -/
theorem reachable_recordInv {s : Store} (hs : Reachable s) :
    ∀ r ∈ s, recordInv r := by
  induction hs with
  | init => intro r hr; cases hr
  | step _ hstep ih =>
      cases hstep with
      | create text h =>
          intro r hr
          rcases List.mem_append.mp hr with hl | hl
          · exact ih r hl
          · rcases List.mem_singleton.mp hl with rfl
            exact recordInv_mkRecord _ _
      | recordStep i hi r' h =>
          intro r hr
          rcases List.mem_or_eq_of_mem_set hr with hl | rfl
          · exact ih r hl
          · exact recordInv_rstep h (ih _ (List.get_mem _ i hi))

/-- The seven permitted edges of the state machine (spec section 4
diagram). -/
def allowedEdges : List (WState × WState) :=
  [(.RECEIVED, .AI_ANALYZED),
   (.AI_ANALYZED, .WAITING_FOR_APPROVAL),
   (.AI_ANALYZED, .AI_FAILED),
   (.WAITING_FOR_APPROVAL, .REJECTED),
   (.WAITING_FOR_APPROVAL, .ACTION_APPROVED),
   (.ACTION_APPROVED, .ACTION_EXECUTED),
   (.ACTION_APPROVED, .ACTION_FAILED)]

/-- Whether a pair of states is one of the permitted edges. -/
def allowedEdge (a b : WState) : Bool :=
  allowedEdges.contains (a, b)

/-- A progress measure on states: every permitted edge strictly increases
it, so states are never rewound. -/
def rank : WState → Nat
  | .RECEIVED => 0
  | .AI_ANALYZED => 1
  | .WAITING_FOR_APPROVAL => 2
  | .AI_FAILED => 2
  | .ACTION_APPROVED => 3
  | .REJECTED => 3
  | .ACTION_EXECUTED => 4
  | .ACTION_FAILED => 4

theorem allowedEdge_rank {a b : WState} (h : allowedEdge a b = true) :
    rank a < rank b := by
  revert h; cases a <;> cases b <;> decide

theorem rstep_allowedEdge {r r' : WorkflowRecord} (h : RStep r r') :
    allowedEdge r.state r'.state = true ∧ rank r.state < rank r'.state := by
  have he : allowedEdge r.state r'.state = true := by
    cases h with
    | claim h => rw [h]; rfl
    | analyzeOk out h => rw [h]; rfl
    | analyzeFail raw h => rw [h]; rfl
    | reject d h hd => rw [h]; rfl
    | approve d h hd => rw [h]; rfl
    | execOk h => rw [h]; rfl
    | execFail err h => rw [h]; rfl
  exact ⟨he, allowedEdge_rank he⟩

/-- Errors a decide call can return (spec sections 4.3 and 7). -/
inductive DecideErr
  | InvalidStateError
  | NotFoundError
deriving DecidableEq, Repr

/-- Result of a decide call: the updated record, or an error. -/
inductive DecideResult
  | ok (r : WorkflowRecord)
  | err (e : DecideErr)
deriving DecidableEq, Repr

/-- Look a record up by id, first match in insertion order. -/
def getById : Store → Nat → Option WorkflowRecord
  | [], _ => none
  | r :: rest, id => if r.id = id then some r else getById rest id

/-- Modelled from the spec: the record produced by a successful decide
(section 4.3).  A rejection is the single transition to REJECTED; an
approval durably records the decision in ACTION_APPROVED, invokes the
Action Executor once, and resolves to ACTION_EXECUTED or ACTION_FAILED
according to the executor outcome. -/
def applyDecision (r : WorkflowRecord) (d : Decision) (reviewer : String)
    (notes : Option String) (execOk : Bool) : WorkflowRecord :=
  let hd : HumanDecision := ⟨d, reviewer, notes⟩
  match d with
  | .rejected =>
      { r with state := .REJECTED,
               human_decision := some hd,
               events := r.events ++ [⟨"rejected", none⟩] }
  | .approved =>
      let r1 : WorkflowRecord :=
        { r with state := WState.ACTION_APPROVED,
                         human_decision := some hd,
                         events := r.events ++ [⟨"approved", none⟩] }
      if execOk then
        { r1 with state := .ACTION_EXECUTED,
                  executor_invocations := r1.executor_invocations + 1,
                  events := r1.events ++ [⟨"action_executed", none⟩] }
      else
        { r1 with state := .ACTION_FAILED,
                  executor_invocations := r1.executor_invocations + 1,
                  events := r1.events ++ [⟨"action_failed", none⟩] }

/-- Modelled from the spec: the Approval Gateway decide operation
(section 4.3).  The precondition is checked against the current state of
the addressed record; on violation it returns InvalidStateError and the
store is unchanged. -/
def decide (s : Store) (id : Nat) (d : Decision) (reviewer : String)
    (notes : Option String) (execOk : Bool) : DecideResult × Store :=
  match s with
  | [] => (.err .NotFoundError, [])
  | r :: rest =>
      if r.id = id then
        if r.state = .WAITING_FOR_APPROVAL then
          let r' := applyDecision r d reviewer notes execOk
          (.ok r', r' :: rest)
        else (.err .InvalidStateError, r :: rest)
      else
        let out := decide rest id d reviewer notes execOk
        (out.1, r :: out.2)

/-- Errors a create call can return (spec section 4.1). -/
inductive CreateErr
  | ValidationError
deriving DecidableEq, Repr

/-- Result of a create call: the new id, or an error. -/
inductive CreateResult
  | ok (id : Nat)
  | err (e : CreateErr)
deriving DecidableEq, Repr

/-- Modelled from the spec: the WorkflowStore create operation
(section 4.1), rejecting empty or whitespace-only text with
ValidationError and writing no record in that case. -/
def create (s : Store) (text : String) : CreateResult × Store :=
  if jsTrim text = "" then (.err .ValidationError, s)
  else (.ok s.length, s ++ [mkRecord s.length text])

/-- HTTP method of a request issued by the dashboard. -/
inductive Method
  | GET
  | POST
deriving DecidableEq, Repr

/-- A request the dashboard issues through fetch.  A fetch call with no
method option is a GET. -/
structure Request where
  method : Method
  path : String
  body : Option String
deriving DecidableEq, Repr

/-- Whether a request only reads (GET carries no mutation). -/
def isReadRequest (r : Request) : Bool :=
  r.method == .GET

/-- The requests the WorkflowList createWorkflow handler issues for a given
textarea content: none when the trimmed text is empty, else one POST to
/workflows carrying the untrimmed text. -/
def createWorkflowRequests_list (newRequest : String) : List Request :=
  if jsTrim newRequest = "" then []
  else [⟨.POST, "/workflows", some newRequest⟩]

/-- The requests the App createWorkflow handler issues for a given textarea
content: none when the trimmed text is empty, else one POST to /workflows
carrying the trimmed text. -/
def createWorkflowRequests_app (newRequest : String) : List Request :=
  if jsTrim newRequest = "" then []
  else [⟨.POST, "/workflows", some (jsTrim newRequest)⟩]

/-- The single request the WorkflowDetails timeline loader issues for a
workflow id: a GET of the events resource, with no body. -/
def timelineRequests (id : String) : List Request :=
  [⟨.GET, "/workflows/" ++ id ++ "/events", none⟩]

/-- The JSON body of the decide request built by the WorkflowList
approveWorkflow handler. -/
structure DecideBody where
  decision : String
  reviewer : String
  notes : Option String
deriving DecidableEq, Repr

/-- Body built by WorkflowList approveWorkflow: decision as passed,
reviewer fixed, no notes field. -/
def approveWorkflowBody_list (decision : String) : DecideBody :=
  ⟨decision, "user@company.com", none⟩

/-- Body built by App approveWorkflow: decision as passed, reviewer fixed,
notes chosen by the decision. -/
def approveWorkflowBody_app (decision : String) : DecideBody :=
  ⟨decision, "user@company.com",
    some (if decision = "approved" then "Approved via UI" else "Rejected via UI")⟩

/-- The decision arguments the dashboards ever pass to approveWorkflow:
the Approve button passes approved, the Reject button passes rejected. -/
def dashboardDecisionArgs : List String :=
  ["approved", "rejected"]

/-- Conformance of a decide body to the Decide interface of spec
section 6: decision is approved or rejected, reviewer is non-empty.  The
notes field is an optional string by construction. -/
def conformsDecideInterface (b : DecideBody) : Bool :=
  (b.decision == "approved" || b.decision == "rejected") && !(b.reviewer == "")

/-- A workflow summary as the dashboards receive it from the list
endpoint: the state arrives as a string. -/
structure DashboardWorkflow where
  id : String
  request_text : String
  state : String
deriving DecidableEq, Repr

/-- Both dashboards render the Approve and Reject buttons exactly when
this guard holds on the workflow summary. -/
def showDecisionControls (wf : DashboardWorkflow) : Bool :=
  wf.state == "WAITING_FOR_APPROVAL"

/-- The state-to-color map of the WorkflowList StatusBadge. -/
def statusColors_list : List (String × String) :=
  [("RECEIVED", "#9ca3af"),
   ("AI_ANALYZED", "#60a5fa"),
   ("WAITING_FOR_APPROVAL", "#f59e0b"),
   ("ACTION_APPROVED", "#6366f1"),
   ("ACTION_EXECUTED", "#10b981"),
   ("REJECTED", "#ef4444"),
   ("AI_FAILED", "#dc2626"),
   ("ACTION_FAILED", "#991b1b")]

/-- The state-to-color map of the App StatusBadge. -/
def statusColors_app : List (String × String) :=
  [("RECEIVED", "#9ca3af"),
   ("AI_ANALYZED", "#60a5fa"),
   ("WAITING_FOR_APPROVAL", "#f59e0b"),
   ("ACTION_EXECUTED", "#10b981"),
   ("REJECTED", "#ef4444"),
   ("AI_FAILED", "#dc2626")]

/-- Badge background color in the WorkflowList variant: the mapped color,
or the neutral fallback when the state is not in the map. -/
def badgeColor_list (state : String) : String :=
  (statusColors_list.lookup state).getD "#e5e7eb"

/-- Badge background color in the App variant: the mapped color, or the
neutral fallback when the state is not in the map. -/
def badgeColor_app (state : String) : String :=
  (statusColors_app.lookup state).getD "#e5e7eb"

/-- A timeline event as the dashboard receives it from the events
endpoint. -/
structure TimelineEvent where
  event_type : String
  created_at : String
  event_data : Option String
deriving DecidableEq, Repr

/-- One rendered timeline entry: keyed by its position, showing the event
type, timestamp and data of one received event. -/
structure RenderedTimelineEntry where
  key : Nat
  event_type : String
  created_at : String
  event_data : Option String
deriving DecidableEq, Repr

/-- The WorkflowDetails timeline render: one entry per received event, in
received order, keyed by index. -/
def renderTimeline (events : List TimelineEvent) : List RenderedTimelineEntry :=
  events.enum.map (fun p => ⟨p.1, p.2.event_type, p.2.created_at, p.2.event_data⟩)

theorem lookup_eq_none_of_not_mem_keys {α β : Type} [BEq α] [LawfulBEq α]
    (l : List (α × β)) (a : α) (h : a ∉ l.map Prod.fst) :
    l.lookup a = none := by
  induction l with
  | nil => rfl
  | cons p rest ih =>
      simp only [List.map_cons, List.mem_cons] at h
      push_neg at h
      have hne : (a == p.1) = false := beq_false_of_ne h.1
      simp [List.lookup, hne, ih h.2]

theorem dropWhile_eq_nil_of_all {l : List Char}
    (h : l.all isWs = true) : l.dropWhile isWs = [] := by
  induction l with
  | nil => rfl
  | cons c rest ih =>
      simp only [List.all_cons, Bool.and_eq_true] at h
      simp [List.dropWhile, h.1, ih h.2]

theorem jsTrim_eq_empty_of_all_ws {text : String}
    (h : text.toList.all isWs = true) : jsTrim text = "" := by
  unfold jsTrim trimL
  rw [dropWhile_eq_nil_of_all h]
  rfl

/-- Terminal states of the state machine (spec section 4). -/
def isTerminal : WState → Bool
  | .ACTION_EXECUTED => true
  | .ACTION_FAILED => true
  | .REJECTED => true
  | .AI_FAILED => true
  | _ => false

theorem applyDecision_id (r : WorkflowRecord) (d : Decision) (rev : String)
    (n : Option String) (ex : Bool) : (applyDecision r d rev n ex).id = r.id := by
  cases d <;> cases ex <;> rfl

theorem applyDecision_terminal (r : WorkflowRecord) (d : Decision) (rev : String)
    (n : Option String) (ex : Bool) :
    (applyDecision r d rev n ex).state ≠ .WAITING_FOR_APPROVAL
    ∧ isTerminal (applyDecision r d rev n ex).state = true := by
  cases d <;> cases ex <;> simp [applyDecision, isTerminal]

theorem decide_invalid_of_not_waiting
    {s : Store} {id : Nat} {r : WorkflowRecord}
    (hget : getById s id = some r) (hst : r.state ≠ .WAITING_FOR_APPROVAL)
    (d : Decision) (rev : String) (n : Option String) (ex : Bool) :
    decide s id d rev n ex = (.err .InvalidStateError, s) := by
  revert hget
  induction s with
  | nil => intro hget; simp [getById] at hget
  | cons r0 rest ih =>
      intro hget
      by_cases h0 : r0.id = id
      · simp only [getById, if_pos h0] at hget
        obtain rfl : r0 = r := Option.some.inj hget
        simp [decide, h0, hst]
      · simp only [getById, if_neg h0] at hget
        simp [decide, h0, ih hget]

theorem decide_waiting_ok
    {s : Store} {id : Nat} {r : WorkflowRecord}
    (hget : getById s id = some r) (hst : r.state = .WAITING_FOR_APPROVAL)
    (d : Decision) (rev : String) (n : Option String) (ex : Bool) :
    (decide s id d rev n ex).1 = .ok (applyDecision r d rev n ex)
    ∧ getById (decide s id d rev n ex).2 id = some (applyDecision r d rev n ex) := by
  revert hget
  induction s with
  | nil => intro hget; simp [getById] at hget
  | cons r0 rest ih =>
      intro hget
      by_cases h0 : r0.id = id
      · simp only [getById, if_pos h0] at hget
        obtain rfl : r0 = r := Option.some.inj hget
        have hid : (applyDecision r0 d rev n ex).id = id := by
          rw [applyDecision_id]; exact h0
        simp [decide, h0, hst, getById, hid]
      · simp only [getById, if_neg h0] at hget
        have := ih hget
        simp [decide, h0, this.1, getById, this.2]

/-- Claim C3: a decide call on a record that is not in WAITING_FOR_APPROVAL
fails with InvalidStateError and leaves the store unchanged, so decide can
succeed only from WAITING_FOR_APPROVAL; and the dashboards render the
Approve and Reject controls for a workflow exactly when its state is
WAITING_FOR_APPROVAL. -/
theorem decide_requires_waiting_for_approval
    (s : Store) (id : Nat) (d : Decision) (rev : String)
    (n : Option String) (ex : Bool) (r : WorkflowRecord)
    (hget : getById s id = some r) (hst : r.state ≠ .WAITING_FOR_APPROVAL) :
    decide s id d rev n ex = (.err .InvalidStateError, s)
    ∧ ∀ wf : DashboardWorkflow,
        (showDecisionControls wf = true ↔ wf.state = "WAITING_FOR_APPROVAL") := by
  refine ⟨decide_invalid_of_not_waiting hget hst d rev n ex, ?_⟩
  intro wf
  simp [showDecisionControls]

/-- Witness for C3: a freshly created record is in RECEIVED, and a decide
call on it fails with InvalidStateError leaving the store unchanged. -/
theorem decide_requires_waiting_for_approval_witness :
    getById [mkRecord 0 "hello"] 0 = some (mkRecord 0 "hello")
    ∧ (mkRecord 0 "hello").state ≠ .WAITING_FOR_APPROVAL
    ∧ decide [mkRecord 0 "hello"] 0 .approved "r@x.com" none true
        = (.err .InvalidStateError, [mkRecord 0 "hello"]) :=
  ⟨rfl, by decide,
    (decide_requires_waiting_for_approval [mkRecord 0 "hello"] 0 .approved
      "r@x.com" none true (mkRecord 0 "hello") rfl (by decide)).1⟩

/-- Claim C4: when two decide calls race on the same WAITING_FOR_APPROVAL
record, the store serializes them through its conditional write; whichever
lands first succeeds and moves the record to a terminal state, and the
other then fails with InvalidStateError and changes nothing — in either
order, so exactly one of the two succeeds. -/
theorem concurrent_decides_exactly_one
    (s : Store) (id : Nat) (r : WorkflowRecord)
    (d₁ d₂ : Decision) (rev₁ rev₂ : String) (n₁ n₂ : Option String)
    (e₁ e₂ : Bool)
    (hget : getById s id = some r) (hst : r.state = .WAITING_FOR_APPROVAL) :
    ∃ r₁, (decide s id d₁ rev₁ n₁ e₁).1 = .ok r₁
      ∧ isTerminal r₁.state = true
      ∧ decide (decide s id d₁ rev₁ n₁ e₁).2 id d₂ rev₂ n₂ e₂
          = (.err .InvalidStateError, (decide s id d₁ rev₁ n₁ e₁).2) := by
  obtain ⟨hok, hget'⟩ := decide_waiting_ok hget hst d₁ rev₁ n₁ e₁
  obtain ⟨hne, hterm⟩ := applyDecision_terminal r d₁ rev₁ n₁ e₁
  exact ⟨applyDecision r d₁ rev₁ n₁ e₁, hok, hterm,
    decide_invalid_of_not_waiting hget' hne d₂ rev₂ n₂ e₂⟩

/-- Witness for C4: a concrete WAITING_FOR_APPROVAL record on which an
approve call and a racing reject call are serialized. -/
theorem concurrent_decides_exactly_one_witness :
    getById [{ mkRecord 0 "hello" with state := .WAITING_FOR_APPROVAL }] 0
        = some { mkRecord 0 "hello" with state := .WAITING_FOR_APPROVAL }
    ∧ ({ mkRecord 0 "hello" with state := .WAITING_FOR_APPROVAL }
        : WorkflowRecord).state = .WAITING_FOR_APPROVAL
    ∧ ∃ r₁,
        (decide [{ mkRecord 0 "hello" with state := .WAITING_FOR_APPROVAL }]
            0 .approved "a@x.com" none true).1 = .ok r₁
        ∧ isTerminal r₁.state = true
        ∧ decide (decide [{ mkRecord 0 "hello" with state := .WAITING_FOR_APPROVAL }]
              0 .approved "a@x.com" none true).2 0 .rejected "b@x.com" none true
            = (.err .InvalidStateError,
               (decide [{ mkRecord 0 "hello" with state := .WAITING_FOR_APPROVAL }]
                  0 .approved "a@x.com" none true).2) :=
  ⟨rfl, rfl,
    concurrent_decides_exactly_one
      [{ mkRecord 0 "hello" with state := .WAITING_FOR_APPROVAL }] 0
      { mkRecord 0 "hello" with state := .WAITING_FOR_APPROVAL }
      .approved .rejected "a@x.com" "b@x.com" none none true true rfl rfl⟩

/-- Claim C5: for text that is empty or whitespace-only, the store create
operation fails with ValidationError and writes no record, and neither
dashboard createWorkflow handler issues any request. -/
theorem empty_text_creates_nothing
    (text : String) (h : text.toList.all isWs = true) (s : Store) :
    create s text = (.err .ValidationError, s)
    ∧ createWorkflowRequests_list text = []
    ∧ createWorkflowRequests_app text = [] := by
  have ht : jsTrim text = "" := jsTrim_eq_empty_of_all_ws h
  refine ⟨?_, ?_, ?_⟩ <;>
    simp [create, createWorkflowRequests_list, createWorkflowRequests_app, ht]

/-- Witness for C5: a three-space string is whitespace-only, is rejected by
create without a write, and triggers no dashboard request. -/
theorem empty_text_creates_nothing_witness :
    ("   ").toList.all isWs = true
    ∧ create [] "   " = (.err .ValidationError, [])
    ∧ createWorkflowRequests_list "   " = []
    ∧ createWorkflowRequests_app "   " = [] :=
  ⟨by decide,
    (empty_text_creates_nothing "   " (by decide) []).1,
    (empty_text_creates_nothing "   " (by decide) []).2.1,
    (empty_text_creates_nothing "   " (by decide) []).2.2⟩

/-- Claim C6: every decide request body the dashboards submit conforms to
the Decide interface: the decision field is exactly approved or rejected,
the reviewer field is a non-empty string, and notes, when present, is a
string by construction of the body type. -/
theorem dashboard_decide_bodies_conform
    (d : String) (h : d ∈ dashboardDecisionArgs) :
    conformsDecideInterface (approveWorkflowBody_list d) = true
    ∧ conformsDecideInterface (approveWorkflowBody_app d) = true := by
  simp only [dashboardDecisionArgs, List.mem_cons, List.not_mem_nil,
    or_false] at h
  rcases h with rfl | rfl <;> exact ⟨rfl, rfl⟩

/-- Witness for C6: the Approve button argument yields conformant bodies
in both dashboard variants. -/
theorem dashboard_decide_bodies_conform_witness :
    "approved" ∈ dashboardDecisionArgs
    ∧ conformsDecideInterface (approveWorkflowBody_list "approved") = true
    ∧ conformsDecideInterface (approveWorkflowBody_app "approved") = true :=
  ⟨by simp [dashboardDecisionArgs],
    (dashboard_decide_bodies_conform "approved" (by simp [dashboardDecisionArgs])).1,
    (dashboard_decide_bodies_conform "approved" (by simp [dashboardDecisionArgs])).2⟩

/-- Claim C7: loading the timeline for any workflow id issues only read
requests: every request is a GET and carries no body, so no operation that
mutates the record or its event log is ever issued. -/
theorem timeline_view_read_only
    (id : String) (r : Request) (h : r ∈ timelineRequests id) :
    isReadRequest r = true ∧ r.method = .GET ∧ r.body = none := by
  simp only [timelineRequests, List.mem_singleton] at h
  subst h
  exact ⟨rfl, rfl, rfl⟩

/-- Witness for C7: the one request issued for a concrete workflow id is a
bodiless GET. -/
theorem timeline_view_read_only_witness :
    (⟨.GET, "/workflows/" ++ "w1" ++ "/events", none⟩ : Request)
        ∈ timelineRequests "w1"
    ∧ isReadRequest ⟨.GET, "/workflows/" ++ "w1" ++ "/events", none⟩ = true :=
  ⟨by simp [timelineRequests],
    (timeline_view_read_only "w1" ⟨.GET, "/workflows/" ++ "w1" ++ "/events", none⟩
      (by simp [timelineRequests])).1⟩

/-- Claim C8: the timeline view renders exactly one entry per received
event, in received order: the rendered list has the same length as the
received sequence and its i-th entry shows the i-th received event, so no
event is reordered, dropped, or duplicated. -/
theorem timeline_renders_in_order (events : List TimelineEvent) :
    (renderTimeline events).length = events.length
    ∧ ∀ (i : Nat) (hi : i < events.length),
        ∃ hr : i < (renderTimeline events).length,
          (renderTimeline events).get ⟨i, hr⟩ =
            ⟨i, (events.get ⟨i, hi⟩).event_type, (events.get ⟨i, hi⟩).created_at,
              (events.get ⟨i, hi⟩).event_data⟩ := by
  constructor
  · simp [renderTimeline]
  · intro i hi
    have hr : i < (renderTimeline events).length := by simp [renderTimeline, hi]
    refine ⟨hr, ?_⟩
    simp [renderTimeline, List.get_eq_getElem]

/-- Witness for C8: a concrete two-event timeline renders both events at
their own positions. -/
theorem timeline_renders_in_order_witness :
    (renderTimeline [⟨"created", "t0", none⟩, ⟨"claimed", "t1", none⟩]).length = 2
    ∧ ∃ hr : 1 < (renderTimeline
          [⟨"created", "t0", none⟩, ⟨"claimed", "t1", none⟩]).length,
        (renderTimeline
          [⟨"created", "t0", none⟩, ⟨"claimed", "t1", none⟩]).get ⟨1, hr⟩ =
          ⟨1, "claimed", "t1", none⟩ :=
  ⟨(timeline_renders_in_order
      [⟨"created", "t0", none⟩, ⟨"claimed", "t1", none⟩]).1,
    (timeline_renders_in_order
      [⟨"created", "t0", none⟩, ⟨"claimed", "t1", none⟩]).2 1 (by decide)⟩

/-- Claim C9: StatusBadge is total over arbitrary state strings in both
variants: it always computes a background color, and for any state not in
its color map that color is the neutral fallback. -/
theorem statusBadge_total_with_fallback
    (state : String)
    (h1 : state ∉ statusColors_list.map Prod.fst)
    (h2 : state ∉ statusColors_app.map Prod.fst) :
    badgeColor_list state = "#e5e7eb" ∧ badgeColor_app state = "#e5e7eb" := by
  unfold badgeColor_list badgeColor_app
  rw [lookup_eq_none_of_not_mem_keys _ _ h1,
    lookup_eq_none_of_not_mem_keys _ _ h2]
  exact ⟨rfl, rfl⟩

/-- Witness for C9: a state string outside both color maps renders the
neutral fallback in both variants. -/
theorem statusBadge_total_with_fallback_witness :
    "SOME_FUTURE_STATE" ∉ statusColors_list.map Prod.fst
    ∧ "SOME_FUTURE_STATE" ∉ statusColors_app.map Prod.fst
    ∧ badgeColor_list "SOME_FUTURE_STATE" = "#e5e7eb"
    ∧ badgeColor_app "SOME_FUTURE_STATE" = "#e5e7eb" :=
  ⟨by decide, by decide,
    (statusBadge_total_with_fallback "SOME_FUTURE_STATE" (by decide) (by decide)).1,
    (statusBadge_total_with_fallback "SOME_FUTURE_STATE" (by decide) (by decide)).2⟩

/-- Counterexample to C10: on ACTION_APPROVED the WorkflowList badge is
indigo while the App badge falls back to the neutral color, so the two
StatusBadge implementations are not equivalent on all eight states. -/
theorem statusBadge_variants_differ :
    badgeColor_list "ACTION_APPROVED" = "#6366f1"
    ∧ badgeColor_app "ACTION_APPROVED" = "#e5e7eb"
    ∧ badgeColor_list "ACTION_APPROVED" ≠ badgeColor_app "ACTION_APPROVED" :=
  ⟨rfl, rfl, by decide⟩

/-- Amended C10: the two StatusBadge implementations agree on the six
states present in both color maps; on ACTION_APPROVED and ACTION_FAILED
the App variant renders the neutral fallback instead. -/
theorem statusBadge_variants_agree_on_shared
    (st : String)
    (h : st ∈ ["RECEIVED", "AI_ANALYZED", "WAITING_FOR_APPROVAL",
               "ACTION_EXECUTED", "REJECTED", "AI_FAILED"]) :
    badgeColor_list st = badgeColor_app st := by
  simp only [List.mem_cons, List.not_mem_nil, or_false] at h
  rcases h with rfl | rfl | rfl | rfl | rfl | rfl <;> rfl

/-- Witness for amended C10: both variants agree on RECEIVED. -/
theorem statusBadge_variants_agree_on_shared_witness :
    "RECEIVED" ∈ ["RECEIVED", "AI_ANALYZED", "WAITING_FOR_APPROVAL",
                  "ACTION_EXECUTED", "REJECTED", "AI_FAILED"]
    ∧ badgeColor_list "RECEIVED" = badgeColor_app "RECEIVED" :=
  ⟨by simp,
    statusBadge_variants_agree_on_shared "RECEIVED" (by simp)⟩

/-- Claim C1: on every reachable store, every record has been through at
most one Action Executor invocation; any invocation implies a recorded
approved human decision; and a record whose decision is rejected, or whose
state is REJECTED, has zero invocations. -/
theorem executor_once_and_only_on_approval
    (s : Store) (hs : Reachable s) (r : WorkflowRecord) (hr : r ∈ s) :
    r.executor_invocations ≤ 1
    ∧ (1 ≤ r.executor_invocations →
        ∃ d, r.human_decision = some d ∧ d.decision = .approved)
    ∧ (∀ d, r.human_decision = some d → d.decision = .rejected →
        r.executor_invocations = 0)
    ∧ (r.state = .REJECTED → r.executor_invocations = 0) := by
  have inv := reachable_recordInv hs r hr
  cases hstate : r.state <;> simp only [recordInv, hstate] at inv
  case RECEIVED | AI_ANALYZED | WAITING_FOR_APPROVAL | AI_FAILED =>
    obtain ⟨h0, hd⟩ := inv
    refine ⟨by omega, fun h1 => by omega, fun d hsome => by simp [hd] at hsome,
      fun _ => h0⟩
  case ACTION_APPROVED =>
    obtain ⟨h0, d, hsome, happ⟩ := inv
    refine ⟨by omega, fun h1 => by omega, ?_, fun _ => h0⟩
    intro d' hsome' hrej
    rw [hsome] at hsome'
    obtain rfl := Option.some.inj hsome'
    rw [happ] at hrej
    cases hrej
  case REJECTED =>
    obtain ⟨h0, d, hsome, hrej⟩ := inv
    refine ⟨by omega, fun h1 => by omega, fun _ _ _ => h0, fun _ => h0⟩
  case ACTION_EXECUTED | ACTION_FAILED =>
    obtain ⟨h1, d, hsome, happ⟩ := inv
    refine ⟨h1, fun _ => ⟨d, hsome, happ⟩, ?_, fun habs => by simp [hstate] at habs⟩
    intro d' hsome' hrej
    rw [hsome] at hsome'
    obtain rfl := Option.some.inj hsome'
    rw [happ] at hrej
    cases hrej

/-- Claim C2: across any single store step from a reachable store, a
record whose state changed did so along one of the seven permitted edges,
and its progress rank strictly increased, so a state is never rewound. -/
theorem transitions_only_along_edges
    (s s' : Store) (hs : Reachable s) (hstep : StoreStep s s')
    (j : Nat) (hj : j < s.length) (hj' : j < s'.length)
    (hne : (s.get ⟨j, hj⟩).state ≠ (s'.get ⟨j, hj'⟩).state) :
    allowedEdge (s.get ⟨j, hj⟩).state (s'.get ⟨j, hj'⟩).state = true
    ∧ rank (s.get ⟨j, hj⟩).state < rank (s'.get ⟨j, hj'⟩).state := by
  cases hstep with
  | create text h =>
      exfalso
      apply hne
      have : (s ++ [mkRecord s.length text]).get ⟨j, hj'⟩ = s.get ⟨j, hj⟩ := by
        simp only [List.get_eq_getElem]
        exact List.getElem_append_left hj
      rw [this]
  | recordStep i hi r' h =>
      by_cases hij : i = j
      · subst hij
        have hget' : (s.set i r').get ⟨i, hj'⟩ = r' := by
          simp [List.get_eq_getElem]
        rw [hget']
        exact rstep_allowedEdge h
      · exfalso
        apply hne
        have : (s.set i r').get ⟨j, hj'⟩ = s.get ⟨j, hj⟩ := by
          simp [List.get_eq_getElem, List.getElem_set_ne, hij]
        rw [this]

/-- A concrete run used as witness material: one record created, claimed,
analyzed, approved, and executed. -/
def demoText : String := "Follow up with ABC Corp about pricing"

/-- The demo record as created. -/
def demoRec0 : WorkflowRecord := mkRecord 0 demoText

/-- The demo record after the Analyzer claim. -/
def demoRec1 : WorkflowRecord :=
  { demoRec0 with state := .AI_ANALYZED,
                  events := demoRec0.events ++ [⟨"claimed", none⟩] }

/-- The validated AI recommendation of the demo run. -/
def demoOut : AIOutput := ⟨"follow_up", "send_email", 82 / 100⟩

/-- The demo record after successful analysis. -/
def demoRec2 : WorkflowRecord :=
  { demoRec1 with state := .WAITING_FOR_APPROVAL,
                  ai_output := some demoOut,
                  events := demoRec1.events ++ [⟨"ai_analyzed", none⟩] }

/-- The approval recorded in the demo run. -/
def demoDecision : HumanDecision := ⟨.approved, "r@x.com", none⟩

/-- The demo record after the approval is durably recorded. -/
def demoRec3 : WorkflowRecord :=
  { demoRec2 with state := .ACTION_APPROVED,
                  human_decision := some demoDecision,
                  events := demoRec2.events ++ [⟨"approved", none⟩] }

/-- The demo record after the executor succeeded. -/
def demoRec4 : WorkflowRecord :=
  { demoRec3 with state := .ACTION_EXECUTED,
                  executor_invocations := demoRec3.executor_invocations + 1,
                  events := demoRec3.events ++ [⟨"action_executed", none⟩] }

theorem demoStep01 : StoreStep [demoRec0] [demoRec1] :=
  StoreStep.recordStep [demoRec0] 0 (by simp) demoRec1 (RStep.claim demoRec0 rfl)

theorem demoReach0 : Reachable [demoRec0] :=
  Reachable.step Reachable.init (StoreStep.create [] demoText (by decide))

theorem demoReach1 : Reachable [demoRec1] :=
  Reachable.step demoReach0 demoStep01

theorem demoReach2 : Reachable [demoRec2] :=
  Reachable.step demoReach1
    (StoreStep.recordStep [demoRec1] 0 (by simp) demoRec2
      (RStep.analyzeOk demoRec1 demoOut rfl))

theorem demoReach3 : Reachable [demoRec3] :=
  Reachable.step demoReach2
    (StoreStep.recordStep [demoRec2] 0 (by simp) demoRec3
      (RStep.approve demoRec2 demoDecision rfl rfl))

theorem demoReach4 : Reachable [demoRec4] :=
  Reachable.step demoReach3
    (StoreStep.recordStep [demoRec3] 0 (by simp) demoRec4
      (RStep.execOk demoRec3 rfl))

/-- Witness for C1: the fully executed demo record is reachable and shows
one executor invocation backed by an approved decision. -/
theorem executor_once_and_only_on_approval_witness :
    Reachable [demoRec4]
    ∧ demoRec4 ∈ [demoRec4]
    ∧ demoRec4.executor_invocations ≤ 1
    ∧ (1 ≤ demoRec4.executor_invocations →
        ∃ d, demoRec4.human_decision = some d ∧ d.decision = .approved) :=
  ⟨demoReach4, List.mem_singleton_self _,
    (executor_once_and_only_on_approval [demoRec4] demoReach4 demoRec4
      (List.mem_singleton_self _)).1,
    (executor_once_and_only_on_approval [demoRec4] demoReach4 demoRec4
      (List.mem_singleton_self _)).2.1⟩

/-- Witness for C2: the claim step of the demo run changes the state along
a permitted edge with strictly increasing rank. -/
theorem transitions_only_along_edges_witness :
    Reachable [demoRec0]
    ∧ StoreStep [demoRec0] [demoRec1]
    ∧ ∃ hj : 0 < [demoRec0].length, ∃ hj' : 0 < [demoRec1].length,
        ([demoRec0].get ⟨0, hj⟩).state ≠ ([demoRec1].get ⟨0, hj'⟩).state
        ∧ allowedEdge ([demoRec0].get ⟨0, hj⟩).state
            ([demoRec1].get ⟨0, hj'⟩).state = true
        ∧ rank ([demoRec0].get ⟨0, hj⟩).state
            < rank ([demoRec1].get ⟨0, hj'⟩).state :=
  ⟨demoReach0, demoStep01, by simp, by simp, by decide,
    (transitions_only_along_edges [demoRec0] [demoRec1] demoReach0 demoStep01
      0 (by simp) (by simp) (by decide)).1,
    (transitions_only_along_edges [demoRec0] [demoRec1] demoReach0 demoStep01
      0 (by simp) (by simp) (by decide)).2⟩

end EnterpriseWorkflows
